import Mathlib

/-!
Shallow embedding, in Lean 4, of the two Python source files of the
Tax-Calculator repository under verification:

* `taxcalc/reforms/earnings_shifting.py` — the earnings-shifting
  simulation driver: the full-shift transform, the adoption-probability
  model, the stochastic partial-shift engine, and the decile-table
  aggregator/report.
* `taxcalc/validation/taxsim/process_tc_output.py` — the translator from
  `tc --dump` output to the Internet-TAXSIM 9.3 28-field output format.

Modelling conventions: Python/numpy floats are embedded as rationals
(`ℚ`), Python ints as `ℤ`, numpy arrays as column functions `ι → ℚ` over
an arbitrary row-index type `ι` (vectorized numpy statements become
pointwise definitions; `np.where` becomes a pointwise `if`).  Python's
fixed-point string formatting is modelled by an exact decimal renderer.
-/

namespace EarningsShifting

/-- A Records object restricted to the columns read or written by the
earnings-shifting script: sampling weight `s006`, total wages `e00200`,
taxpayer and spouse wage shares `e00200p`/`e00200s`, aggregate
pass-through income `e02000`, its sub-component `e26270`, the
taxpayer/spouse partnership shares `k1bx14p`/`k1bx14s`, filing status
`MARS`, and the engine-computed `combined` tax. Columns are functions
over the row-index type `ι` (a numpy array of one value per row). -/
structure Records (ι : Type) where
  s006 : ι → ℚ
  e00200 : ι → ℚ
  e00200p : ι → ℚ
  e00200s : ι → ℚ
  e02000 : ι → ℚ
  e26270 : ι → ℚ
  k1bx14p : ι → ℚ
  k1bx14s : ι → ℚ
  MARS : ι → ℤ
  combined : ι → ℚ

variable {ι : Type}

/-- The taxpayer block of `full_earnings_shift` (earnings_shifting.py
lines 300-304): `e02000 += e00200p`, `e26270 += e00200p`,
`k1bx14p += e00200p`, `e00200 -= e00200p`, then `e00200p.fill(0)`.
Each numpy statement reads the not-yet-overwritten `e00200p`, so every
update uses the pre-transform taxpayer wage value. -/
def full_shift_taxpayer (recs : Records ι) : Records ι :=
  { recs with
    e02000 := fun i => recs.e02000 i + recs.e00200p i
    e26270 := fun i => recs.e26270 i + recs.e00200p i
    k1bx14p := fun i => recs.k1bx14p i + recs.e00200p i
    e00200 := fun i => recs.e00200 i - recs.e00200p i
    e00200p := fun _ => 0 }

/-- The spouse block of `full_earnings_shift` (lines 307-311), run only
when `taxpayer_only is False`: the same five statements with `e00200s`
and `k1bx14s` in place of `e00200p` and `k1bx14p`. -/
def full_shift_spouse (recs : Records ι) : Records ι :=
  { recs with
    e02000 := fun i => recs.e02000 i + recs.e00200s i
    e26270 := fun i => recs.e26270 i + recs.e00200s i
    k1bx14s := fun i => recs.k1bx14s i + recs.e00200s i
    e00200 := fun i => recs.e00200 i - recs.e00200s i
    e00200s := fun _ => 0 }

/-- `full_earnings_shift(recs, taxpayer_only)` (lines 281-318): always
performs the taxpayer shift; when `taxpayer_only` is false it then also
performs the spouse shift.  (The `dump` debug branch is dead code:
`dump = False`.) -/
def full_earnings_shift (recs : Records ι) (taxpayer_only : Bool) : Records ι :=
  let recs1 := full_shift_taxpayer recs
  if taxpayer_only then recs1 else full_shift_spouse recs1

/-- The probability-parameter dictionary built by `get_cli_parameters`. -/
structure Param where
  taxyear : ℤ
  min_earnings : ℚ
  min_savings : ℚ
  shift_prob : ℚ

/-- `probability(param, indiv_earnings, tax_savings)` (lines 374-382):
elementwise `np.where(earnings >= min_earnings and savings >= min_savings,
shift_prob, 0.0)`. -/
def probability (param : Param) (indiv_earnings tax_savings : ι → ℚ) : ι → ℚ :=
  fun i =>
    if indiv_earnings i ≥ param.min_earnings ∧ tax_savings i ≥ param.min_savings
    then param.shift_prob else 0

/-- The masked taxpayer reallocation of `partial_earnings_shift`
(lines 343-347): five `np.where(does, ..., ...)` statements; rows with
`does` false keep every column value, rows with `does` true get the
three-step reallocation driven by the pre-transform `e00200p` (which is
only overwritten by the final statement). -/
def partial_shift_taxpayer (does : ι → Bool) (recs : Records ι) : Records ι :=
  { recs with
    e02000 := fun i => if does i then recs.e02000 i + recs.e00200p i else recs.e02000 i
    e26270 := fun i => if does i then recs.e26270 i + recs.e00200p i else recs.e26270 i
    e00200 := fun i => if does i then recs.e00200 i - recs.e00200p i else recs.e00200 i
    k1bx14p := fun i => if does i then recs.k1bx14p i + recs.e00200p i else recs.k1bx14p i
    e00200p := fun i => if does i then 0 else recs.e00200p i }

/-- The masked spouse reallocation of `partial_earnings_shift`
(lines 355-359): as the taxpayer block with `e00200s`/`k1bx14s`. -/
def partial_shift_spouse (does : ι → Bool) (recs : Records ι) : Records ι :=
  { recs with
    e02000 := fun i => if does i then recs.e02000 i + recs.e00200s i else recs.e02000 i
    e26270 := fun i => if does i then recs.e26270 i + recs.e00200s i else recs.e26270 i
    e00200 := fun i => if does i then recs.e00200 i - recs.e00200s i else recs.e00200 i
    k1bx14s := fun i => if does i then recs.k1bx14s i + recs.e00200s i else recs.k1bx14s i
    e00200s := fun i => if does i then 0 else recs.e00200s i }

/-- Result of `partial_earnings_shift`: the mutated Records object plus
the two adoption masks (`does` arrays) drawn in the taxpayer pass and
the spouse pass. -/
structure PartialShiftResult (ι : Type) where
  recs : Records ι
  does_p : ι → Bool
  does_s : ι → Bool

/-- The taxpayer pass of `partial_earnings_shift` (lines 337-347):
potential savings are `recs_noes.combined - recs_full_p.combined`, the
probability array is `probability(param, recs.e00200p, savings)`, a row
adopts iff its uniform draw is strictly below its probability
(`urn < prob`), and the masked taxpayer reallocation is applied. -/
def partial_pass_taxpayer (recs recs_full_p recs_noes : Records ι) (param : Param)
    (urn : ι → ℚ) : (ι → Bool) × Records ι :=
  let potential_savings := fun i => recs_noes.combined i - recs_full_p.combined i
  let prob := probability param recs.e00200p potential_savings
  let does := fun i => decide (urn i < prob i)
  (does, partial_shift_taxpayer does recs)

/-- The spouse pass of `partial_earnings_shift` (lines 349-359):
potential savings are `recs_full_p.combined - recs_full_b.combined`,
the probability array uses the (unchanged-by-the-first-pass) `e00200s`
column of the mutated Records, the adoption test is again `urn < prob`,
and the masked spouse reallocation is applied. -/
def partial_pass_spouse (recs recs_full_p recs_full_b : Records ι) (param : Param)
    (urn : ι → ℚ) : (ι → Bool) × Records ι :=
  let potential_savings := fun i => recs_full_p.combined i - recs_full_b.combined i
  let prob := probability param recs.e00200s potential_savings
  let does := fun i => decide (urn i < prob i)
  (does, partial_shift_spouse does recs)

/-- `partial_earnings_shift(recs, recs_full_p, recs_full_b, recs_noes,
param)` (lines 321-371) with the two uniform-draw arrays made explicit:
the taxpayer pass runs first on `recs`, the spouse pass then runs on its
output with a fresh draw array.  (The shifter-count reporting writes to
stdout only and does not touch the Records.) -/
def partial_earnings_shift (recs recs_full_p recs_full_b recs_noes : Records ι)
    (param : Param) (urn_p urn_s : ι → ℚ) : PartialShiftResult ι :=
  let pass1 := partial_pass_taxpayer recs recs_full_p recs_noes param urn_p
  let pass2 := partial_pass_spouse pass1.2 recs_full_p recs_full_b param urn_s
  ⟨pass2.2, pass1.1, pass2.1⟩

/-- The fixed seed `urn_seed = 123456` set at the top of
`partial_earnings_shift` (line 334). -/
def urn_seed : ℕ := 123456

/-- Model of numpy's seeded pseudorandom number stream.  The generator
itself (MT19937 behind `np.random.seed` / `np.random.random`) is an
external library, not part of this repository; what the script relies
on, and what this model captures, is that after `np.random.seed(s)` the
t-th uniform draw is a pure function of `s` and `t` with a value in
[0,1).  Here a 64-bit linear-congruential state sequence stands in for
the Mersenne Twister; draw `t` maps the (t+1)-st state into [0,1). -/
def npRandomStream (seed : ℕ) (t : ℕ) : ℚ :=
  let step : ℕ → ℕ := fun st => (6364136223846793005 * st + 1442695040888963407) % 2 ^ 64
  ((step^[t + 1] seed) % 2 ^ 53 : ℕ) / (2 ^ 53 : ℚ)

/-- `partial_earnings_shift` over rows `Fin n` with the draws produced
from the seed as in the source (lines 334-351): `np.random.seed(urn_seed)`
then two successive `np.random.random(shape)` calls, so the taxpayer
pass consumes draws 0..n-1 of the stream and the spouse pass draws
n..2n-1. -/
def partial_earnings_shift_seeded {n : ℕ}
    (recs recs_full_p recs_full_b recs_noes : Records (Fin n))
    (param : Param) (seed : ℕ) : PartialShiftResult (Fin n) :=
  partial_earnings_shift recs recs_full_p recs_full_b recs_noes param
    (fun i => npRandomStream seed i.val) (fun i => npRandomStream seed (n + i.val))

/-- The validation prologue and overall exit behaviour of `main`
(lines 42-52 and 141): exit code 1 with no simulation when
`taxyear < 2017` (first reform year) or when `shift_prob` lies outside
[0,1]; otherwise the simulation body runs (Calculator construction,
transforms, tables — all effectful work collapsed into the Boolean
"simulated" flag) and `main` returns 0.  The pair is
(exit code, whether the simulation body was reached). -/
def main_run (param : Param) : ℤ × Bool :=
  if param.taxyear < 2017 then (1, false)
  else if param.shift_prob < 0 ∨ param.shift_prob > 1 then (1, false)
  else (0, true)

/-! ### Decile-table aggregator (`write_decile_table`, lines 235-278)

The binning helper `add_weighted_income_bins` and the two reduction
helpers `unweighted_sum` / `weighted_sum` come from the taxcalc utility
module, which is not among the source files; they are modelled from the
spec.  A binning is an assignment of every row to one of the ten bins,
which is exactly a function `ι → Fin 10` (its fibers partition the
rows). -/

/-- The rows assigned to bin `d` by the binning function `bins`. -/
def bin_fiber [Fintype ι] (bins : ι → Fin 10) (d : Fin 10) : Finset ι :=
  Finset.univ.filter (fun i => bins i = d)

/-- Modelled from the spec: taxcalc's `unweighted_sum(pdf, col)` helper
(not in src), applied by `write_decile_table` to the `s006` weight
column per bin group — "unweighted count of weight units (i.e., Σ weight
over rows in the bin)": the plain sum of the column over the group. -/
def unweighted_sum (s : Finset ι) (col : ι → ℚ) : ℚ := ∑ i in s, col i

/-- Modelled from the spec: taxcalc's `weighted_sum(pdf, col)` helper
(not in src), applied per bin group — "the weighted sum (Σ weight ·
metric) over rows in the bin". -/
def weighted_sum (s : Finset ι) (w col : ι → ℚ) : ℚ := ∑ i in s, w i * col i

/-- One groupby-apply series of `write_decile_table` (lines 245-248):
the weighted sum of a column within each decile bin. -/
def decile_series [Fintype ι] (bins : ι → Fin 10) (w col : ι → ℚ) (d : Fin 10) : ℚ :=
  weighted_sum (bin_fiber bins d) w col

/-- The returns series of `write_decile_table` (line 244): the
unweighted sum of the `s006` weights within each decile bin. -/
def decile_returns_series [Fintype ι] (bins : ι → Fin 10) (w : ι → ℚ) (d : Fin 10) : ℚ :=
  unweighted_sum (bin_fiber bins d) w

/-- pandas `series.sum()` over the ten bins, used for the table's final
"All" row (lines 273-277). -/
def series_sum (f : Fin 10 → ℚ) : ℚ := ∑ d, f d

/-! ### Python fixed-point formatting

Exact decimal model of Python format specifiers of the form
width.precision-f: round the value to `prec` decimal digits (ties to
even, as Python rounds), render sign, integer part, a decimal point and
exactly `prec` fraction digits, then left-pad with spaces to `width`. -/

/-- Round a rational to the nearest integer, ties to even. -/
def roundHalfEven (q : ℚ) : ℤ :=
  let f : ℤ := ⌊q⌋
  if q - f < 1 / 2 then f
  else if 1 / 2 < q - f then f + 1
  else if f % 2 = 0 then f else f + 1

/-- The decimal digit character for `n % 10`. -/
def digitChar (n : ℕ) : Char := Char.ofNat (48 + n % 10)

/-- The `prec` zero-padded fraction digits of `m` (most significant
first): digit `k` from the right is `m / 10 ^ k % 10`. -/
def fracStr (prec m : ℕ) : String :=
  String.mk (((List.range prec).reverse).map (fun k => digitChar (m / 10 ^ k % 10)))

/-- Left-pad a string with spaces to the given width (Python
right-aligns numbers within the field width). -/
def padLeft (width : ℕ) (s : String) : String :=
  String.mk (List.replicate (width - s.length) ' ') ++ s

/-- Python `'%d'`-style integer rendering: optional minus sign and the
decimal digits of the absolute value. -/
def fmtInt (n : ℤ) : String :=
  (if n < 0 then "-" else "") ++ Nat.repr n.natAbs

/-- Python fixed-point formatting `width.prec f` of a rational. -/
def fmtFixed (width prec : ℕ) (x : ℚ) : String :=
  let n : ℤ := roundHalfEven (x * 10 ^ prec)
  let a : ℕ := n.natAbs
  padLeft width
    ((if n < 0 then "-" else "") ++
      Nat.repr (a / 10 ^ prec) ++ "." ++ fracStr prec (a % 10 ^ prec))

/-- The number of characters strictly after the last decimal point of a
string (its count of displayed fraction digits). -/
def fracLen (s : String) : ℕ :=
  (s.data.reverse.takeWhile (fun c => c ≠ '.')).length

/-! ### The decile-table rows (lines 263-278) -/

/-- The five formatted figures of one decile-table row (line 263's
format `9.1f 10.1f 10.1f 10.1f 10.1f` applied at lines 266-270 and
273-277): returns scaled by 1e-6, the dollar sums scaled by 1e-9. -/
def decile_row_fields (rtns xinc itax ptax ctax : ℚ) : List String :=
  [fmtFixed 9 1 (rtns * (1 / 1000000)),
   fmtFixed 10 1 (xinc * (1 / 1000000000)),
   fmtFixed 10 1 (itax * (1 / 1000000000)),
   fmtFixed 10 1 (ptax * (1 / 1000000000)),
   fmtFixed 10 1 (ctax * (1 / 1000000000))]

/-- One decile data row (lines 264-271): the decile number in width 2,
then the five figures, then a newline. -/
def decile_data_row (decile : ℕ) (rtns xinc itax ptax ctax : ℚ) : String :=
  padLeft 2 (Nat.repr decile) ++
    String.join (decile_row_fields rtns xinc itax ptax ctax) ++ "\n"

/-- The final "All" row (lines 272-278): the literal prefix `' A'`,
then the five figures computed from the series sums, then a newline. -/
def decile_all_row (rtns xinc itax ptax ctax : ℚ) : String :=
  " A" ++ String.join (decile_row_fields rtns xinc itax ptax ctax) ++ "\n"

/-- The data rows written by `write_decile_table` (after its two header
lines): one row per decile 0-9, then the "All" row built from the
series sums. -/
def write_decile_table_rows [Fintype ι] (bins : ι → Fin 10)
    (s006 expanded_income iitax payrolltax combined : ι → ℚ) : List String :=
  let rtns := decile_returns_series bins s006
  let xinc := decile_series bins s006 expanded_income
  let itax := decile_series bins s006 iitax
  let ptax := decile_series bins s006 payrolltax
  let ctax := decile_series bins s006 combined
  ((List.finRange 10).map fun d =>
    decile_data_row d.val (rtns d) (xinc d) (itax d) (ptax d) (ctax d)) ++
  [decile_all_row (series_sum rtns) (series_sum xinc) (series_sum itax)
    (series_sum ptax) (series_sum ctax)]

end EarningsShifting

namespace ProcessTcOutput

/-! ### `process_tc_output.py`: the TAXSIM 28-field translator -/

/-- One row of `tc --dump` output restricted to the columns read by
`extract_output` (all CSV values are numeric). -/
structure TcRow where
  RECID : ℚ
  FLPDYR : ℚ
  iitax : ℚ
  payrolltax : ℚ
  c00100 : ℚ
  e02300 : ℚ
  c02500 : ℚ
  pre_c04600 : ℚ
  c04600 : ℚ
  c21040 : ℚ
  c04470 : ℚ
  c04800 : ℚ
  taxbc : ℚ
  c07220 : ℚ
  c11070 : ℚ
  c07180 : ℚ
  eitc : ℚ
  c62100 : ℚ
  c09600 : ℚ
  c05800 : ℚ

/-- Python `int()` applied to a numeric value: truncation toward 0. -/
def pyInt (q : ℚ) : ℤ := if q < 0 then -⌊-q⌋ else ⌊q⌋

/-- An output-dictionary value: Python stores ints for variables 1-3 and
floats for variables 4-28. -/
inductive OVal where
  | int (n : ℤ)
  | flt (q : ℚ)
deriving DecidableEq

/-- `extract_output(out)` (lines 77-136): the 28 output variables in
index order 1..28.  Variables 3, 5, 7, 8, 9, 13, 20 and 21 are the
constants set in the source; variable 15 is the phased-out personal
exemption `pre_c04600 - c04600`; variable 27 is the AMT liability
`c09600` and variable 28 is `c05800 - c09600`. -/
def extract_output (out : TcRow) : List OVal :=
  [OVal.int (pyInt out.RECID),
   OVal.int (pyInt out.FLPDYR),
   OVal.int 0,
   OVal.flt out.iitax,
   OVal.flt 0,
   OVal.flt out.payrolltax,
   OVal.flt 0,
   OVal.flt 0,
   OVal.flt 0,
   OVal.flt out.c00100,
   OVal.flt out.e02300,
   OVal.flt out.c02500,
   OVal.flt 0,
   OVal.flt out.c04600,
   OVal.flt (out.pre_c04600 - out.c04600),
   OVal.flt out.c21040,
   OVal.flt out.c04470,
   OVal.flt out.c04800,
   OVal.flt out.taxbc,
   OVal.flt 0,
   OVal.flt 0,
   OVal.flt out.c07220,
   OVal.flt out.c11070,
   OVal.flt out.c07180,
   OVal.flt out.eitc,
   OVal.flt out.c62100,
   OVal.flt out.c09600,
   OVal.flt (out.c05800 - out.c09600)]

/-- The `OVAR_FMT` table (lines 139-166): variable 1 is an integer with
a trailing decimal point; variables 2 and 3 are integers with a leading
blank; every other variable is a two-decimal fixed-point number with a
leading blank. -/
def OVAR_FMT (vnum : ℕ) (v : OVal) : String :=
  match v with
  | OVal.int n => if vnum = 1 then EarningsShifting.fmtInt n ++ "." else " " ++ EarningsShifting.fmtInt n
  | OVal.flt q => " " ++ EarningsShifting.fmtFixed 0 2 q

/-- `construct_output_line(odict)` (lines 169-186): concatenate the
formatted variables in index order 1..len(odict), then a newline. -/
def construct_output_line (odict : List OVal) : String :=
  String.join ((odict.enumFrom 1).map fun p => OVAR_FMT p.1 p.2) ++ "\n"

end ProcessTcOutput

namespace EarningsShifting

/-! ## Claim theorems -/

/-- A one-row Record Set (taxpayer wage 1, spouse wage 2, no
pass-through income) exhibiting that a both-filers full shift does not
conserve `e00200p + e02000` alone: the aggregate also absorbs the
spouse wage. -/
def c1rec : Records Unit :=
  { s006 := fun _ => 1
    e00200 := fun _ => 3
    e00200p := fun _ => 1
    e00200s := fun _ => 2
    e02000 := fun _ => 0
    e26270 := fun _ => 0
    k1bx14p := fun _ => 0
    k1bx14s := fun _ => 0
    MARS := fun _ => 2
    combined := fun _ => 0 }

/-- C1 (counterexample): with the both-filers flag set, the sum
`e00200p + e02000` is NOT conserved by `full_earnings_shift` on the
concrete one-row record `c1rec` (taxpayer wage 1, spouse wage 2,
`e02000 = 0`): before the transform the sum is 1, after it is 3,
because the aggregate pass-through column also absorbs the spouse
wage. -/
theorem c1_full_shift_conservation_cx :
    ¬ ((full_earnings_shift c1rec false).e00200p () +
        (full_earnings_shift c1rec false).e02000 () =
       c1rec.e00200p () + c1rec.e02000 ()) := by
  simp only [full_earnings_shift, full_shift_taxpayer, full_shift_spouse, c1rec,
    Bool.false_eq_true, if_false]
  norm_num

/-- C1 (amended): for every row, a taxpayer-only full shift conserves
`e00200p + e02000`; a both-filers full shift conserves
`e00200p + e00200s + e02000` (both wage components are moved into the
single shared aggregate column, so the per-role sums are not separately
conserved); after the transform the taxpayer wage column is exactly
zero, and the spouse wage column too when both filers are shifted. -/
theorem c1_full_shift_conservation (recs : Records ι) (i : ι) :
    (full_earnings_shift recs true).e00200p i + (full_earnings_shift recs true).e02000 i =
      recs.e00200p i + recs.e02000 i ∧
    (full_earnings_shift recs false).e00200p i + (full_earnings_shift recs false).e00200s i +
        (full_earnings_shift recs false).e02000 i =
      recs.e00200p i + recs.e00200s i + recs.e02000 i ∧
    (full_earnings_shift recs true).e00200p i = 0 ∧
    (full_earnings_shift recs false).e00200p i = 0 ∧
    (full_earnings_shift recs false).e00200s i = 0 := by
  refine ⟨?_, ?_, ?_, ?_, ?_⟩ <;>
    (simp only [full_earnings_shift, full_shift_taxpayer, full_shift_spouse,
      Bool.false_eq_true, if_true, if_false]
     try ring)

/-- C2: the probability function returns exactly `shift_prob` when both
thresholds are met, exactly 0 otherwise (in particular for any savings
below `min_savings`, negative included), and never takes any value
other than `shift_prob` or 0; it is a total function on `ℚ`-valued
earnings and savings arrays. -/
theorem c2_probability_gate (param : Param) (e s : ι → ℚ) (i : ι) :
    (param.min_earnings ≤ e i ∧ param.min_savings ≤ s i →
      probability param e s i = param.shift_prob) ∧
    (e i < param.min_earnings ∨ s i < param.min_savings →
      probability param e s i = 0) ∧
    (probability param e s i = param.shift_prob ∨ probability param e s i = 0) := by
  refine ⟨fun h => ?_, fun h => ?_, ?_⟩
  · simp only [probability]
    exact if_pos ⟨h.1, h.2⟩
  · simp only [probability]
    refine if_neg fun hc => ?_
    rcases h with h | h
    · exact absurd hc.1 (not_le.mpr h)
    · exact absurd hc.2 (not_le.mpr h)
  · simp only [probability]
    by_cases hc : e i ≥ param.min_earnings ∧ s i ≥ param.min_savings
    · exact Or.inl (if_pos hc)
    · exact Or.inr (if_neg hc)

/-- Parameter dictionary used by concrete witnesses: year 2018,
thresholds 0 and 0, shift probability 1. -/
def param0 : Param :=
  { taxyear := 2018, min_earnings := 0, min_savings := 0, shift_prob := 1 }

/-- C2 witness: at concrete inputs, an individual with earnings 50000
and savings 10 (both thresholds 0) gets probability `shift_prob`, and an
individual with savings -5 gets probability 0. -/
theorem c2_probability_gate_witness :
    ((0 : ℚ) ≤ 50000 ∧ (0 : ℚ) ≤ 10 ∧
      probability param0 (fun _ : Unit => 50000) (fun _ => 10) () = param0.shift_prob) ∧
    ((-5 : ℚ) < 0 ∧
      probability param0 (fun _ : Unit => 50000) (fun _ => -5) () = 0) :=
  ⟨⟨by decide, by decide,
    (c2_probability_gate param0 (fun _ : Unit => 50000) (fun _ => 10) ()).1
      ⟨by decide, by decide⟩⟩,
   ⟨by decide,
    (c2_probability_gate param0 (fun _ : Unit => 50000) (fun _ => -5) ()).2.1
      (Or.inr (by decide))⟩⟩

/-- C3: in each pass of the stochastic adoption engine, a row adopts
iff its uniform draw is strictly below its probability; a non-adopting
row keeps every one of its column values through that pass (in
particular the five columns the masked reallocation touches), and an
adopting row is mutated exactly by the masked reallocation: aggregate
`e02000` += source wage, detail `e26270` and `k1bx14p`/`k1bx14s` +=
source wage, total wages `e00200` -= source wage, source wage := 0. -/
theorem c3_partial_shift_frame (recs recs_full_p recs_full_b recs_noes : Records ι)
    (param : Param) (urn : ι → ℚ) (i : ι) :
    ((partial_pass_taxpayer recs recs_full_p recs_noes param urn).1 i = true ↔
      urn i < probability param recs.e00200p
        (fun j => recs_noes.combined j - recs_full_p.combined j) i) ∧
    ((partial_pass_taxpayer recs recs_full_p recs_noes param urn).1 i = false →
      (partial_pass_taxpayer recs recs_full_p recs_noes param urn).2.e02000 i = recs.e02000 i ∧
      (partial_pass_taxpayer recs recs_full_p recs_noes param urn).2.e26270 i = recs.e26270 i ∧
      (partial_pass_taxpayer recs recs_full_p recs_noes param urn).2.e00200 i = recs.e00200 i ∧
      (partial_pass_taxpayer recs recs_full_p recs_noes param urn).2.k1bx14p i = recs.k1bx14p i ∧
      (partial_pass_taxpayer recs recs_full_p recs_noes param urn).2.e00200p i = recs.e00200p i ∧
      (partial_pass_taxpayer recs recs_full_p recs_noes param urn).2.k1bx14s i = recs.k1bx14s i ∧
      (partial_pass_taxpayer recs recs_full_p recs_noes param urn).2.e00200s i = recs.e00200s i) ∧
    ((partial_pass_taxpayer recs recs_full_p recs_noes param urn).1 i = true →
      (partial_pass_taxpayer recs recs_full_p recs_noes param urn).2.e02000 i =
        recs.e02000 i + recs.e00200p i ∧
      (partial_pass_taxpayer recs recs_full_p recs_noes param urn).2.e26270 i =
        recs.e26270 i + recs.e00200p i ∧
      (partial_pass_taxpayer recs recs_full_p recs_noes param urn).2.e00200 i =
        recs.e00200 i - recs.e00200p i ∧
      (partial_pass_taxpayer recs recs_full_p recs_noes param urn).2.k1bx14p i =
        recs.k1bx14p i + recs.e00200p i ∧
      (partial_pass_taxpayer recs recs_full_p recs_noes param urn).2.e00200p i = 0) ∧
    ((partial_pass_spouse recs recs_full_p recs_full_b param urn).1 i = true ↔
      urn i < probability param recs.e00200s
        (fun j => recs_full_p.combined j - recs_full_b.combined j) i) ∧
    ((partial_pass_spouse recs recs_full_p recs_full_b param urn).1 i = false →
      (partial_pass_spouse recs recs_full_p recs_full_b param urn).2.e02000 i = recs.e02000 i ∧
      (partial_pass_spouse recs recs_full_p recs_full_b param urn).2.e26270 i = recs.e26270 i ∧
      (partial_pass_spouse recs recs_full_p recs_full_b param urn).2.e00200 i = recs.e00200 i ∧
      (partial_pass_spouse recs recs_full_p recs_full_b param urn).2.k1bx14s i = recs.k1bx14s i ∧
      (partial_pass_spouse recs recs_full_p recs_full_b param urn).2.e00200s i = recs.e00200s i ∧
      (partial_pass_spouse recs recs_full_p recs_full_b param urn).2.k1bx14p i = recs.k1bx14p i ∧
      (partial_pass_spouse recs recs_full_p recs_full_b param urn).2.e00200p i = recs.e00200p i) ∧
    ((partial_pass_spouse recs recs_full_p recs_full_b param urn).1 i = true →
      (partial_pass_spouse recs recs_full_p recs_full_b param urn).2.e02000 i =
        recs.e02000 i + recs.e00200s i ∧
      (partial_pass_spouse recs recs_full_p recs_full_b param urn).2.e26270 i =
        recs.e26270 i + recs.e00200s i ∧
      (partial_pass_spouse recs recs_full_p recs_full_b param urn).2.e00200 i =
        recs.e00200 i - recs.e00200s i ∧
      (partial_pass_spouse recs recs_full_p recs_full_b param urn).2.k1bx14s i =
        recs.k1bx14s i + recs.e00200s i ∧
      (partial_pass_spouse recs recs_full_p recs_full_b param urn).2.e00200s i = 0) := by
  refine ⟨?_, fun h => ?_, fun h => ?_, ?_, fun h => ?_, fun h => ?_⟩
  · simp [partial_pass_taxpayer]
  · simp only [partial_pass_taxpayer] at h ⊢
    simp only [partial_shift_taxpayer]
    simp [h]
  · simp only [partial_pass_taxpayer, decide_eq_true_eq] at h
    simp only [partial_pass_taxpayer, partial_shift_taxpayer]
    simp [h]
  · simp [partial_pass_spouse]
  · simp only [partial_pass_spouse] at h ⊢
    simp only [partial_shift_spouse]
    simp [h]
  · simp only [partial_pass_spouse, decide_eq_true_eq] at h
    simp only [partial_pass_spouse, partial_shift_spouse]
    simp [h]

/-- C3 witness: with thresholds 0, shift probability 1, savings 0 and a
draw of 1 the single row does not adopt and every column is unchanged;
with a draw of 0 it adopts. -/
theorem c3_partial_shift_frame_witness :
    ((partial_pass_taxpayer c1rec c1rec c1rec param0 (fun _ => 1)).1 () = false ∧
      (partial_pass_taxpayer c1rec c1rec c1rec param0 (fun _ => 1)).2.e02000 () =
        c1rec.e02000 ()) ∧
    ((partial_pass_taxpayer c1rec c1rec c1rec param0 (fun _ => 0)).1 () = true ∧
      (partial_pass_taxpayer c1rec c1rec c1rec param0 (fun _ => 0)).2.e00200p () = 0) := by
  have hfalse : (partial_pass_taxpayer c1rec c1rec c1rec param0 (fun _ => 1)).1 () = false := by
    simp only [partial_pass_taxpayer, probability, c1rec, param0, sub_self]
    norm_num
  have htrue : (partial_pass_taxpayer c1rec c1rec c1rec param0 (fun _ => 0)).1 () = true := by
    simp only [partial_pass_taxpayer, probability, c1rec, param0, sub_self]
    norm_num
  refine ⟨⟨hfalse, ?_⟩, ⟨htrue, ?_⟩⟩
  · exact ((c3_partial_shift_frame c1rec c1rec c1rec c1rec param0 (fun _ => 1) ()).2.1 hfalse).1
  · exact ((c3_partial_shift_frame c1rec c1rec c1rec c1rec param0 (fun _ => 0) ()).2.2.1 htrue).2.2.2.2

/-- C4: the seeded stochastic adoption engine is a deterministic
function of its Record Set inputs, its parameter dictionary and the
seed: two runs with identical inputs produce identical taxpayer and
spouse adoption masks and an identical resulting Record Set. -/
theorem c4_partial_shift_deterministic {n : ℕ}
    (r1 r2 fp1 fp2 fb1 fb2 ne1 ne2 : Records (Fin n)) (pa1 pa2 : Param) (s1 s2 : ℕ)
    (hr : r1 = r2) (hfp : fp1 = fp2) (hfb : fb1 = fb2) (hne : ne1 = ne2)
    (hpa : pa1 = pa2) (hs : s1 = s2) :
    (partial_earnings_shift_seeded r1 fp1 fb1 ne1 pa1 s1).does_p =
      (partial_earnings_shift_seeded r2 fp2 fb2 ne2 pa2 s2).does_p ∧
    (partial_earnings_shift_seeded r1 fp1 fb1 ne1 pa1 s1).does_s =
      (partial_earnings_shift_seeded r2 fp2 fb2 ne2 pa2 s2).does_s ∧
    (partial_earnings_shift_seeded r1 fp1 fb1 ne1 pa1 s1).recs =
      (partial_earnings_shift_seeded r2 fp2 fb2 ne2 pa2 s2).recs := by
  subst hr; subst hfp; subst hfb; subst hne; subst hpa; subst hs
  exact ⟨rfl, rfl, rfl⟩

/-- A one-row Record Set over `Fin 1` used by concrete witnesses. -/
def recFin1 : Records (Fin 1) :=
  { s006 := fun _ => 1
    e00200 := fun _ => 3
    e00200p := fun _ => 1
    e00200s := fun _ => 2
    e02000 := fun _ => 2
    e26270 := fun _ => 1
    k1bx14p := fun _ => 0
    k1bx14s := fun _ => 0
    MARS := fun _ => 2
    combined := fun _ => 0 }

/-- C4 witness: two runs of the seeded engine on the same concrete
one-row inputs with the fixed seed 123456 agree on both masks and on
the resulting Record Set. -/
theorem c4_partial_shift_deterministic_witness :
    (partial_earnings_shift_seeded recFin1 recFin1 recFin1 recFin1 param0 urn_seed).does_p =
      (partial_earnings_shift_seeded recFin1 recFin1 recFin1 recFin1 param0 urn_seed).does_p ∧
    (partial_earnings_shift_seeded recFin1 recFin1 recFin1 recFin1 param0 urn_seed).does_s =
      (partial_earnings_shift_seeded recFin1 recFin1 recFin1 recFin1 param0 urn_seed).does_s ∧
    (partial_earnings_shift_seeded recFin1 recFin1 recFin1 recFin1 param0 urn_seed).recs =
      (partial_earnings_shift_seeded recFin1 recFin1 recFin1 recFin1 param0 urn_seed).recs :=
  c4_partial_shift_deterministic recFin1 recFin1 recFin1 recFin1 recFin1 recFin1
    recFin1 recFin1 param0 param0 urn_seed urn_seed rfl rfl rfl rfl rfl rfl

/-- C6: if the aggregate pass-through column is at least its
sub-component (`e26270 ≤ e02000`) before a transform, it still is after
a full shift with either flag, after a masked taxpayer pass, after a
masked spouse pass, and after the full two-pass partial shift — each
transform adds the same wage amount to both columns on each affected
row. -/
theorem c6_aggregate_detail_invariant (recs recs_full_p recs_full_b recs_noes : Records ι)
    (param : Param) (does : ι → Bool) (urn_p urn_s : ι → ℚ) (b : Bool) (i : ι)
    (h : recs.e26270 i ≤ recs.e02000 i) :
    (full_earnings_shift recs b).e26270 i ≤ (full_earnings_shift recs b).e02000 i ∧
    (partial_shift_taxpayer does recs).e26270 i ≤ (partial_shift_taxpayer does recs).e02000 i ∧
    (partial_shift_spouse does recs).e26270 i ≤ (partial_shift_spouse does recs).e02000 i ∧
    (partial_earnings_shift recs recs_full_p recs_full_b recs_noes param urn_p urn_s).recs.e26270 i ≤
      (partial_earnings_shift recs recs_full_p recs_full_b recs_noes param urn_p urn_s).recs.e02000 i := by
  refine ⟨?_, ?_, ?_, ?_⟩
  · cases b <;>
      (simp only [full_earnings_shift, full_shift_taxpayer, full_shift_spouse,
        Bool.false_eq_true, if_true, if_false]
       linarith)
  · simp only [partial_shift_taxpayer]
    cases hd : does i <;> simp [hd] <;> linarith
  · simp only [partial_shift_spouse]
    cases hd : does i <;> simp [hd] <;> linarith
  · simp only [partial_earnings_shift, partial_pass_spouse, partial_pass_taxpayer,
      partial_shift_taxpayer, partial_shift_spouse]
    split_ifs <;> linarith

/-- C6 witness: the invariant theorem applied to the concrete one-row
record with `e26270 = 1 ≤ 2 = e02000`, full-shift flag false, an
all-true mask and constant draws. -/
theorem c6_aggregate_detail_invariant_witness :
    recFin1.e26270 0 ≤ recFin1.e02000 0 ∧
    (full_earnings_shift recFin1 false).e26270 0 ≤ (full_earnings_shift recFin1 false).e02000 0 :=
  ⟨by decide,
   (c6_aggregate_detail_invariant recFin1 recFin1 recFin1 recFin1 param0
      (fun _ => true) (fun _ => 0) (fun _ => 0) false 0 (by decide)).1⟩

/-- C7: `main` returns exit code 1 exactly when the requested year
precedes 2017 (the first reform year) or the shift probability lies
outside [0,1]; in that case it halts before the simulation body runs
(no Calculator is constructed); for every other parameter dictionary it
runs the simulation and returns exit code 0. -/
theorem c7_main_validation (param : Param) :
    ((main_run param).1 = 1 ↔
      param.taxyear < 2017 ∨ param.shift_prob < 0 ∨ param.shift_prob > 1) ∧
    (param.taxyear < 2017 ∨ param.shift_prob < 0 ∨ param.shift_prob > 1 →
      main_run param = (1, false)) ∧
    (¬ (param.taxyear < 2017 ∨ param.shift_prob < 0 ∨ param.shift_prob > 1) →
      main_run param = (0, true)) := by
  by_cases h1 : param.taxyear < 2017 <;>
    by_cases h2 : param.shift_prob < 0 ∨ param.shift_prob > 1 <;>
    simp [main_run, h1, h2]

/-- An invalid parameter dictionary: probability 2 lies outside [0,1]. -/
def param_bad : Param :=
  { taxyear := 2018, min_earnings := 0, min_savings := 0, shift_prob := 2 }

/-- C7 witness: the valid dictionary (year 2018, probability 1) yields
exit code 0 with the simulation run; the dictionary with probability 2
yields exit code 1 without reaching the simulation. -/
theorem c7_main_validation_witness :
    main_run param0 = (0, true) ∧ main_run param_bad = (1, false) :=
  ⟨(c7_main_validation param0).2.2 (by decide),
   (c7_main_validation param_bad).2.1 (Or.inr (Or.inr (by decide)))⟩

/-- C5: the "All" row of the decile table reconciles with the
ungrouped population, for any binning of the rows into the ten deciles:
the sum over bins of the per-bin weight totals equals the weight total
over all rows, and the sum over bins of the per-bin weighted metric
sums equals the weighted sum of the metric over all rows (exactly, in
rational arithmetic). -/
theorem c5_decile_all_reconciliation [Fintype ι] (bins : ι → Fin 10) (w col : ι → ℚ) :
    series_sum (decile_returns_series bins w) = unweighted_sum Finset.univ w ∧
    series_sum (fun d => decile_series bins w col d) = weighted_sum Finset.univ w col := by
  constructor
  · unfold series_sum decile_returns_series unweighted_sum bin_fiber
    exact Finset.sum_fiberwise Finset.univ bins w
  · unfold series_sum decile_series weighted_sum bin_fiber
    exact Finset.sum_fiberwise Finset.univ bins (fun i => w i * col i)

/-! ### Fraction-digit lemmas for the fixed-point formatter -/

lemma data_append (a b : String) : (a ++ b).data = a.data ++ b.data := rfl

lemma mk_data (l : List Char) : (String.mk l).data = l := rfl

lemma dot_data : ("." : String).data = ['.'] := rfl

lemma digitChar_ne_dot (n : ℕ) : digitChar n ≠ '.' := by
  unfold digitChar
  have h : n % 10 < 10 := Nat.mod_lt _ (by norm_num)
  revert h
  generalize n % 10 = m
  intro h
  interval_cases m <;> decide

lemma takeWhile_append_dot (l rest : List Char) (h : ∀ c ∈ l, c ≠ '.') :
    (l ++ '.' :: rest).takeWhile (fun c => decide (c ≠ '.')) = l := by
  induction l with
  | nil => simp
  | cons a t ih =>
    have ha : a ≠ '.' := h a (by simp)
    simp only [List.cons_append, List.takeWhile_cons, decide_eq_true_eq]
    rw [if_pos ha, ih (fun c hc => h c (by simp [hc]))]

lemma fracLen_eq (s : String) (l1 l2 : List Char) (hdata : s.data = l1 ++ '.' :: l2)
    (h2 : ∀ c ∈ l2, c ≠ '.') : fracLen s = l2.length := by
  unfold fracLen
  rw [hdata, List.reverse_append, List.reverse_cons, List.append_assoc,
    List.singleton_append,
    takeWhile_append_dot _ _ (fun c hc => h2 c (List.mem_reverse.mp hc)),
    List.length_reverse]

/-- Every string produced by the fixed-point formatter displays exactly
`prec` digits after its decimal point, whatever the value and width. -/
lemma fracLen_fmtFixed (width prec : ℕ) (x : ℚ) :
    fracLen (fmtFixed width prec x) = prec := by
  have h2 : ∀ c ∈ ((List.range prec).reverse).map
      (fun k => digitChar ((roundHalfEven (x * 10 ^ prec)).natAbs % 10 ^ prec / 10 ^ k % 10)),
      c ≠ '.' := by
    intro c hc
    rcases List.mem_map.mp hc with ⟨k, _, rfl⟩
    exact digitChar_ne_dot _
  have h := fracLen_eq (fmtFixed width prec x)
    (List.replicate (width -
        ((if roundHalfEven (x * 10 ^ prec) < 0 then "-" else "") ++
          Nat.repr ((roundHalfEven (x * 10 ^ prec)).natAbs / 10 ^ prec) ++ "." ++
          fracStr prec ((roundHalfEven (x * 10 ^ prec)).natAbs % 10 ^ prec)).length) ' ' ++
      ((if roundHalfEven (x * 10 ^ prec) < 0 then "-" else "").data ++
        (Nat.repr ((roundHalfEven (x * 10 ^ prec)).natAbs / 10 ^ prec)).data))
    (((List.range prec).reverse).map
      (fun k => digitChar ((roundHalfEven (x * 10 ^ prec)).natAbs % 10 ^ prec / 10 ^ k % 10)))
    (by
      simp only [fmtFixed, padLeft, fracStr, data_append, mk_data, dot_data,
        List.append_assoc, List.singleton_append])
    h2
  rw [h, List.length_map, List.length_reverse, List.length_range]

/-- C8 (counterexample): the claim of two-decimal figures fails on the
concrete decile row with all five series values equal to 0: its first
figure (and every other) carries exactly one digit after the decimal
point, because the row format of the source is 9.1f/10.1f. -/
theorem c8_decile_format_cx :
    ¬ (∀ f ∈ decile_row_fields 0 0 0 0 0, fracLen f = 2) := by
  intro h
  have h1 := h (fmtFixed 9 1 ((0 : ℚ) * (1 / 1000000))) (by simp [decile_row_fields])
  rw [fracLen_fmtFixed] at h1
  exact absurd h1 (by norm_num)

/-- C8 (amended): every decile-table data row (one per decile 0-9 plus
the final "All" row, so eleven rows in all) formats its count and
dollar figures in fixed ONE-decimal precision (not two), with counts
scaled by 1e-6 and dollar sums scaled by 1e-9 (the scalings appear in
`decile_row_fields`, which every data row and the "All" row use). -/
theorem c8_decile_row_format [Fintype ι] (bins : ι → Fin 10)
    (s006 expanded_income iitax payrolltax combined : ι → ℚ)
    (rtns xinc itax ptax ctax : ℚ) :
    (∀ f ∈ decile_row_fields rtns xinc itax ptax ctax, fracLen f = 1) ∧
    (decile_row_fields rtns xinc itax ptax ctax).length = 5 ∧
    (write_decile_table_rows bins s006 expanded_income iitax payrolltax combined).length = 11 := by
  refine ⟨?_, rfl, ?_⟩
  · intro f hf
    simp only [decile_row_fields, List.mem_cons, List.not_mem_nil, or_false] at hf
    rcases hf with rfl | rfl | rfl | rfl | rfl <;> exact fracLen_fmtFixed _ _ _
  · simp [write_decile_table_rows]

/-- C8 witness: the first figure of the all-zero decile row is a member
of the row's field list and displays exactly one fraction digit. -/
theorem c8_decile_row_format_witness :
    fmtFixed 9 1 ((0 : ℚ) * (1 / 1000000)) ∈ decile_row_fields 0 0 0 0 0 ∧
    fracLen (fmtFixed 9 1 ((0 : ℚ) * (1 / 1000000))) = 1 :=
  ⟨by simp [decile_row_fields],
   (c8_decile_row_format (ι := Unit) (fun _ => 0) (fun _ => 0) (fun _ => 0) (fun _ => 0)
      (fun _ => 0) (fun _ => 0) 0 0 0 0 0).1 _ (by simp [decile_row_fields])⟩

end EarningsShifting

namespace ProcessTcOutput

/-- C10: for every input row, whatever its field values,
`extract_output` sets output variable 3 (state code) to the integer 0
and output variables 5, 7, 8, 9, 13, 20 and 21 (state income tax,
federal and state marginal rates, marginal payroll rate, zero-bracket
amount, exemption surtax, general tax credit) to the float 0; none of
them is computed from the input. -/
theorem c10_constant_outputs (out : TcRow) :
    (extract_output out)[2]? = some (OVal.int 0) ∧
    (extract_output out)[4]? = some (OVal.flt 0) ∧
    (extract_output out)[6]? = some (OVal.flt 0) ∧
    (extract_output out)[7]? = some (OVal.flt 0) ∧
    (extract_output out)[8]? = some (OVal.flt 0) ∧
    (extract_output out)[12]? = some (OVal.flt 0) ∧
    (extract_output out)[19]? = some (OVal.flt 0) ∧
    (extract_output out)[20]? = some (OVal.flt 0) :=
  ⟨rfl, rfl, rfl, rfl, rfl, rfl, rfl, rfl⟩

/-- The formatted field strings of one translated output line: variable
index paired with its `OVAR_FMT` rendering, in order 1..28. -/
def output_fields (out : TcRow) : List String :=
  ((extract_output out).enumFrom 1).map fun p => OVAR_FMT p.1 p.2

/-- C9: for every input row the translator emits a line of exactly 28
ordered fields: the line is the concatenation of the fields and a
newline; field 1 is the RECID integer with a trailing decimal point;
fields 2 and 3 are plain integers (each preceded by the single
separating blank); every field from 4 to 28 is a two-decimal
fixed-point number prefixed with a single blank (each displays exactly
two digits after its decimal point); variable 27 is the AMT liability
`c09600` and variable 28 is the gross pre-credit liability `c05800`
minus that same AMT liability. -/
theorem c9_output_line_format (out : TcRow) :
    (extract_output out).length = 28 ∧
    (output_fields out).length = 28 ∧
    construct_output_line (extract_output out) = String.join (output_fields out) ++ "\n" ∧
    (output_fields out)[0]? = some (EarningsShifting.fmtInt (pyInt out.RECID) ++ ".") ∧
    (output_fields out)[1]? = some (" " ++ EarningsShifting.fmtInt (pyInt out.FLPDYR)) ∧
    (output_fields out)[2]? = some (" " ++ EarningsShifting.fmtInt 0) ∧
    (∀ f ∈ (output_fields out).drop 3,
      ∃ q : ℚ, f = " " ++ EarningsShifting.fmtFixed 0 2 q ∧
        EarningsShifting.fracLen (EarningsShifting.fmtFixed 0 2 q) = 2) ∧
    (extract_output out)[26]? = some (OVal.flt out.c09600) ∧
    (extract_output out)[27]? = some (OVal.flt (out.c05800 - out.c09600)) := by
  refine ⟨rfl, rfl, rfl, rfl, rfl, rfl, ?_, rfl, rfl⟩
  intro f hf
  simp only [output_fields, extract_output, List.enumFrom, List.map_cons, List.map_nil,
    OVAR_FMT, List.drop_succ_cons, List.drop_zero, List.mem_cons, List.not_mem_nil,
    or_false] at hf
  rcases hf with rfl | rfl | rfl | rfl | rfl | rfl | rfl | rfl | rfl | rfl | rfl | rfl |
    rfl | rfl | rfl | rfl | rfl | rfl | rfl | rfl | rfl | rfl | rfl | rfl | rfl <;>
    exact ⟨_, rfl, EarningsShifting.fracLen_fmtFixed 0 2 _⟩

/-- A concrete `tc --dump` row with whole-number values, used by the
C9 witness. -/
def out0 : TcRow :=
  { RECID := 7, FLPDYR := 2017, iitax := 100, payrolltax := 50, c00100 := 1000,
    e02300 := 0, c02500 := 0, pre_c04600 := 8, c04600 := 8, c21040 := 0,
    c04470 := 0, c04800 := 900, taxbc := 90, c07220 := 0, c11070 := 0,
    c07180 := 0, eitc := 0, c62100 := 800, c09600 := 10, c05800 := 100 }

/-- C9 witness: on the concrete row `out0`, field 4 (the income-tax
field, the first member of the dropped-prefix list) is a blank-prefixed
two-decimal fixed-point figure. -/
theorem c9_output_line_format_witness :
    (" " ++ EarningsShifting.fmtFixed 0 2 out0.iitax) ∈ (output_fields out0).drop 3 ∧
    ∃ q : ℚ, (" " ++ EarningsShifting.fmtFixed 0 2 out0.iitax) =
        " " ++ EarningsShifting.fmtFixed 0 2 q ∧
      EarningsShifting.fracLen (EarningsShifting.fmtFixed 0 2 q) = 2 :=
  ⟨by simp [output_fields, extract_output, OVAR_FMT, List.enumFrom],
   (c9_output_line_format out0).2.2.2.2.2.2.1 _
     (by simp [output_fields, extract_output, OVAR_FMT, List.enumFrom])⟩

end ProcessTcOutput
